import Mathlib

/-!
Verification of `src/java.base/share/native/libnio/ch/UnixDomainSocketAddress.c`.

The file defines four process-wide globals (`udsa_class`, `udsa_ctorID`,
`udsa_pathID`, `udsa_initialized`) and one JNI entry point
`Java_java_nio_channels_UnixDomainSocketAddress_init` that lazily resolves
the class, field and constructor handles, guarded by `udsa_initialized`.

Shallow embedding: JNI references (`jclass`, `jfieldID`, `jmethodID`) are
opaque handles modelled as `Nat`; a nullable handle is `Option Nat` with
`none` standing for `NULL`.  The JNI environment is an oracle record of the
four runtime operations the code calls.  `CHECK_NULL(x)` expands to
`if ((x) == NULL) return;`, i.e. an early return with a pending runtime
error; we record that outcome in an `error` flag.  The sequence of JNI
calls actually performed is recorded in a trace list.
-/

/-- An opaque, non-null JNI reference / identifier. -/
abbrev JRef := Nat

/-- The JNI environment as an oracle for the four operations the code uses.
`none` models a `NULL` return (lookup failure / global-ref failure). -/
structure JNIEnv where
  FindClass : String → Option JRef
  NewGlobalRef : JRef → Option JRef
  GetFieldID : JRef → String → String → Option JRef
  GetMethodID : JRef → String → String → Option JRef

/-- The process-wide globals of UnixDomainSocketAddress.c:
`jclass udsa_class; jmethodID udsa_ctorID; jfieldID udsa_pathID;`
`static int udsa_initialized = 0;` -/
structure UDSAGlobals where
  udsa_class : Option JRef
  udsa_pathID : Option JRef
  udsa_ctorID : Option JRef
  udsa_initialized : Bool
deriving DecidableEq, Repr

/-- C static/global storage is zero-initialised: all handles `NULL`,
`udsa_initialized = 0`. -/
def initialGlobals : UDSAGlobals :=
  { udsa_class := none, udsa_pathID := none, udsa_ctorID := none,
    udsa_initialized := false }

/-- The JNI operations the entry point can perform, for the call trace. -/
inductive JNICall
  | FindClass | NewGlobalRef | GetFieldID | GetMethodID
deriving DecidableEq, Repr

/-- The observable outcome of one call to the entry point: the globals on
return, whether the call returned through `CHECK_NULL` with a pending
runtime error, and the JNI operations performed, in order. -/
structure InitResult where
  state : UDSAGlobals
  error : Bool
  trace : List JNICall
deriving DecidableEq, Repr

/-- `Java_java_nio_channels_UnixDomainSocketAddress_init`, line by line:

```
if (!udsa_initialized) {
    jclass c = (*env)->FindClass(env,"java/nio/channels/UnixDomainSocketAddress");
    CHECK_NULL(c);
    udsa_class = (*env)->NewGlobalRef(env, c);
    CHECK_NULL(udsa_class);
    udsa_pathID = (*env)->GetFieldID(env, udsa_class, "pathname", "Ljava/lang/String;");
    CHECK_NULL(udsa_pathID);
    udsa_ctorID = (*env)->GetMethodID(env, udsa_class, "<init>", "(Ljava/lang/String;)V");
    CHECK_NULL(udsa_ctorID);
    udsa_initialized = 1;
}
```
-/
def Java_java_nio_channels_UnixDomainSocketAddress_init
    (env : JNIEnv) (s : UDSAGlobals) : InitResult :=
  if !s.udsa_initialized then
    -- jclass c = FindClass(...); CHECK_NULL(c);  (c is a local)
    match env.FindClass "java/nio/channels/UnixDomainSocketAddress" with
    | none => ⟨s, true, [JNICall.FindClass]⟩
    | some c =>
      -- udsa_class = NewGlobalRef(c); CHECK_NULL(udsa_class);
      let g := env.NewGlobalRef c
      let s1 := { s with udsa_class := g }
      match g with
      | none => ⟨s1, true, [JNICall.FindClass, JNICall.NewGlobalRef]⟩
      | some gc =>
        -- udsa_pathID = GetFieldID(udsa_class, "pathname", "Ljava/lang/String;");
        let f := env.GetFieldID gc "pathname" "Ljava/lang/String;"
        let s2 := { s1 with udsa_pathID := f }
        match f with
        | none =>
            ⟨s2, true, [JNICall.FindClass, JNICall.NewGlobalRef, JNICall.GetFieldID]⟩
        | some _ =>
          -- udsa_ctorID = GetMethodID(udsa_class, "<init>", "(Ljava/lang/String;)V");
          let m := env.GetMethodID gc "<init>" "(Ljava/lang/String;)V"
          let s3 := { s2 with udsa_ctorID := m }
          match m with
          | none =>
              ⟨s3, true,
                [JNICall.FindClass, JNICall.NewGlobalRef, JNICall.GetFieldID,
                 JNICall.GetMethodID]⟩
          | some _ =>
              -- udsa_initialized = 1;
              ⟨{ s3 with udsa_initialized := true }, false,
                [JNICall.FindClass, JNICall.NewGlobalRef, JNICall.GetFieldID,
                 JNICall.GetMethodID]⟩
  else ⟨s, false, []⟩

/-- Running the entry point once per environment in `envs`, threading the
globals; returns the final globals and the concatenated call trace. -/
def runCalls : List JNIEnv → UDSAGlobals → UDSAGlobals × List JNICall
  | [], s => (s, [])
  | env :: rest, s =>
    let r := Java_java_nio_channels_UnixDomainSocketAddress_init env s
    let p := runCalls rest r.state
    (p.1, r.trace ++ p.2)

/-- States reachable from C start-up by calling the entry point any number
of times, with arbitrary JNI environments. -/
inductive ReachableUDSA : UDSAGlobals → Prop
  | start : ReachableUDSA initialGlobals
  | step (env : JNIEnv) {s : UDSAGlobals} :
      ReachableUDSA s →
      ReachableUDSA (Java_java_nio_channels_UnixDomainSocketAddress_init env s).state

/-- An environment in which every lookup succeeds. -/
def envOK : JNIEnv :=
  { FindClass := fun _ => some 1,
    NewGlobalRef := fun r => some (r + 100),
    GetFieldID := fun _ _ _ => some 2,
    GetMethodID := fun _ _ _ => some 3 }

/-- An environment in which `FindClass` returns `NULL`. -/
def envFindClassFails : JNIEnv :=
  { FindClass := fun _ => none,
    NewGlobalRef := fun r => some (r + 100),
    GetFieldID := fun _ _ _ => some 2,
    GetMethodID := fun _ _ _ => some 3 }

/-- An environment in which `NewGlobalRef` returns `NULL`. -/
def envGlobalRefFails : JNIEnv :=
  { FindClass := fun _ => some 1,
    NewGlobalRef := fun _ => none,
    GetFieldID := fun _ _ _ => some 2,
    GetMethodID := fun _ _ _ => some 3 }

/-- An environment in which `GetFieldID` returns `NULL`. -/
def envGetFieldIDFails : JNIEnv :=
  { FindClass := fun _ => some 1,
    NewGlobalRef := fun r => some (r + 100),
    GetFieldID := fun _ _ _ => none,
    GetMethodID := fun _ _ _ => some 3 }

/-- An environment in which `GetMethodID` returns `NULL`. -/
def envGetMethodIDFails : JNIEnv :=
  { FindClass := fun _ => some 1,
    NewGlobalRef := fun r => some (r + 100),
    GetFieldID := fun _ _ _ => some 2,
    GetMethodID := fun _ _ _ => none }

/-- The full sequence of JNI operations an initializing call performs, in
source order. -/
def jniCallSequence : List JNICall :=
  [JNICall.FindClass, JNICall.NewGlobalRef, JNICall.GetFieldID, JNICall.GetMethodID]

/-- The fully initialized globals produced by a successful run that obtained
global class ref `g`, field ID `f` and constructor ID `m`. -/
def doneGlobals (g f m : JRef) : UDSAGlobals :=
  { udsa_class := some g, udsa_pathID := some f, udsa_ctorID := some m,
    udsa_initialized := true }

/-- `s.udsa_class = none ∧ ...`: all three handles unresolved and the flag
clear — one arm of the dichotomy the spec asserts. -/
def allUnresolved (s : UDSAGlobals) : Prop :=
  s.udsa_class = none ∧ s.udsa_pathID = none ∧ s.udsa_ctorID = none ∧
    s.udsa_initialized = false

/-- All three handles resolved (non-null) and the flag set — the other arm
of the dichotomy. -/
def allResolved (s : UDSAGlobals) : Prop :=
  s.udsa_class.isSome = true ∧ s.udsa_pathID.isSome = true ∧
    s.udsa_ctorID.isSome = true ∧ s.udsa_initialized = true

instance (s : UDSAGlobals) : Decidable (allUnresolved s) := by
  unfold allUnresolved; infer_instance

instance (s : UDSAGlobals) : Decidable (allResolved s) := by
  unfold allResolved; infer_instance

/-! ### Path lemmas: one equation per control-flow path of the C function -/

theorem init_done (env : JNIEnv) (s : UDSAGlobals)
    (h : s.udsa_initialized = true) :
    Java_java_nio_channels_UnixDomainSocketAddress_init env s = ⟨s, false, []⟩ := by
  unfold Java_java_nio_channels_UnixDomainSocketAddress_init
  rw [h]
  simp

theorem init_success (env : JNIEnv) (s : UDSAGlobals) (c g f m : JRef)
    (hs : s.udsa_initialized = false)
    (h1 : env.FindClass "java/nio/channels/UnixDomainSocketAddress" = some c)
    (h2 : env.NewGlobalRef c = some g)
    (h3 : env.GetFieldID g "pathname" "Ljava/lang/String;" = some f)
    (h4 : env.GetMethodID g "<init>" "(Ljava/lang/String;)V" = some m) :
    Java_java_nio_channels_UnixDomainSocketAddress_init env s =
      ⟨doneGlobals g f m, false, jniCallSequence⟩ := by
  unfold Java_java_nio_channels_UnixDomainSocketAddress_init
  rw [hs]
  simp [h1, h2, h3, h4, doneGlobals, jniCallSequence]

theorem init_findClass_none (env : JNIEnv) (s : UDSAGlobals)
    (hs : s.udsa_initialized = false)
    (h1 : env.FindClass "java/nio/channels/UnixDomainSocketAddress" = none) :
    Java_java_nio_channels_UnixDomainSocketAddress_init env s =
      ⟨s, true, [JNICall.FindClass]⟩ := by
  unfold Java_java_nio_channels_UnixDomainSocketAddress_init
  rw [hs]
  simp [h1]

theorem init_globalRef_none (env : JNIEnv) (s : UDSAGlobals) (c : JRef)
    (hs : s.udsa_initialized = false)
    (h1 : env.FindClass "java/nio/channels/UnixDomainSocketAddress" = some c)
    (h2 : env.NewGlobalRef c = none) :
    Java_java_nio_channels_UnixDomainSocketAddress_init env s =
      ⟨{ s with udsa_class := none }, true,
        [JNICall.FindClass, JNICall.NewGlobalRef]⟩ := by
  unfold Java_java_nio_channels_UnixDomainSocketAddress_init
  rw [hs]
  simp [h1, h2]

theorem init_fieldID_none (env : JNIEnv) (s : UDSAGlobals) (c g : JRef)
    (hs : s.udsa_initialized = false)
    (h1 : env.FindClass "java/nio/channels/UnixDomainSocketAddress" = some c)
    (h2 : env.NewGlobalRef c = some g)
    (h3 : env.GetFieldID g "pathname" "Ljava/lang/String;" = none) :
    Java_java_nio_channels_UnixDomainSocketAddress_init env s =
      ⟨{ s with udsa_class := some g, udsa_pathID := none }, true,
        [JNICall.FindClass, JNICall.NewGlobalRef, JNICall.GetFieldID]⟩ := by
  unfold Java_java_nio_channels_UnixDomainSocketAddress_init
  rw [hs]
  simp [h1, h2, h3]

theorem init_methodID_none (env : JNIEnv) (s : UDSAGlobals) (c g f : JRef)
    (hs : s.udsa_initialized = false)
    (h1 : env.FindClass "java/nio/channels/UnixDomainSocketAddress" = some c)
    (h2 : env.NewGlobalRef c = some g)
    (h3 : env.GetFieldID g "pathname" "Ljava/lang/String;" = some f)
    (h4 : env.GetMethodID g "<init>" "(Ljava/lang/String;)V" = none) :
    Java_java_nio_channels_UnixDomainSocketAddress_init env s =
      ⟨{ s with udsa_class := some g, udsa_pathID := some f, udsa_ctorID := none },
        true, jniCallSequence⟩ := by
  unfold Java_java_nio_channels_UnixDomainSocketAddress_init
  rw [hs]
  simp [h1, h2, h3, h4, jniCallSequence]

/-- A call that returns with a pending error never sets the flag. -/
theorem init_error_flag (env : JNIEnv) (s : UDSAGlobals)
    (h : (Java_java_nio_channels_UnixDomainSocketAddress_init env s).error = true) :
    (Java_java_nio_channels_UnixDomainSocketAddress_init env s).state.udsa_initialized
      = false := by
  unfold Java_java_nio_channels_UnixDomainSocketAddress_init at *
  split at h
  next hflag =>
    split at h <;> simp_all
    next c hc =>
      split at h <;> simp_all
      next gc hg =>
        split at h <;> simp_all
        next f hf =>
          split at h <;> simp_all
  next hflag => simp_all

/-- A call that returns with a pending error leaves the flag as it found
it (clear), so in particular the flag never leaves `true`. -/
theorem init_flag_of_false (env : JNIEnv) (s : UDSAGlobals)
    (h : (Java_java_nio_channels_UnixDomainSocketAddress_init env s).state.udsa_initialized
      = false) :
    s.udsa_initialized = false := by
  by_contra hs
  rw [init_done env s (Bool.of_not_eq_false hs)] at h
  exact absurd h (by simp [Bool.of_not_eq_false hs])

/-- Once the flag is set, any sequence of further calls is a no-op with an
empty trace. -/
theorem runCalls_done (envs : List JNIEnv) (s : UDSAGlobals)
    (h : s.udsa_initialized = true) :
    runCalls envs s = (s, []) := by
  induction envs with
  | nil => rfl
  | cons env rest ih =>
      unfold runCalls
      rw [init_done env s h]
      simp [ih]

/-! ### Claims -/

/-- C1 counterexample: the claimed dichotomy — every reachable state has
either all handles unresolved with the flag clear, or all handles resolved
with the flag set — is false: one call in an environment whose `GetFieldID`
returns `NULL` reaches a state with the flag clear but `udsa_class` already
holding a global reference. -/
theorem udsa_c1_dichotomy_fails :
    ¬ ∀ s : UDSAGlobals, ReachableUDSA s → allUnresolved s ∨ allResolved s := by
  intro h
  have hr : ReachableUDSA
      (Java_java_nio_channels_UnixDomainSocketAddress_init envGetFieldIDFails
        initialGlobals).state :=
    ReachableUDSA.step envGetFieldIDFails ReachableUDSA.start
  have hd := h _ hr
  revert hd
  decide

/-- C1 (amended): in every reachable state, if `udsa_initialized` is true
then all three handles are resolved and non-null.  (When the flag is false
the handles can be partially resolved by a failed attempt, so the converse
arm of the spec's dichotomy does not hold.) -/
theorem udsa_c1_flag_true_all_resolved (s : UDSAGlobals)
    (hr : ReachableUDSA s) :
    s.udsa_initialized = true → allResolved s := by
  induction hr with
  | start => intro h; exact absurd h (by decide)
  | step env hr ih =>
      rename_i s'
      intro hflag
      by_cases hs : s'.udsa_initialized = true
      · rw [init_done env s' hs] at hflag ⊢
        exact ih hflag
      · have hs' : s'.udsa_initialized = false := by simpa using hs
        rcases h1 : env.FindClass "java/nio/channels/UnixDomainSocketAddress"
          with _ | c
        · rw [init_findClass_none env s' hs' h1] at hflag
          simp [hs'] at hflag
        · rcases h2 : env.NewGlobalRef c with _ | g
          · rw [init_globalRef_none env s' c hs' h1 h2] at hflag
            simp [hs'] at hflag
          · rcases h3 : env.GetFieldID g "pathname" "Ljava/lang/String;"
              with _ | f
            · rw [init_fieldID_none env s' c g hs' h1 h2 h3] at hflag
              simp [hs'] at hflag
            · rcases h4 : env.GetMethodID g "<init>" "(Ljava/lang/String;)V"
                with _ | m
              · rw [init_methodID_none env s' c g f hs' h1 h2 h3 h4] at hflag
                simp [hs'] at hflag
              · rw [init_success env s' c g f m hs' h1 h2 h3 h4]
                simp [allResolved, doneGlobals]

/-- C1 witness: the state after one successful call is reachable, and the
amended claim applies to it. -/
theorem udsa_c1_witness :
    ReachableUDSA
      (Java_java_nio_channels_UnixDomainSocketAddress_init envOK
        initialGlobals).state ∧
    ((Java_java_nio_channels_UnixDomainSocketAddress_init envOK
        initialGlobals).state.udsa_initialized = true →
      allResolved
        (Java_java_nio_channels_UnixDomainSocketAddress_init envOK
          initialGlobals).state) :=
  ⟨ReachableUDSA.step envOK ReachableUDSA.start,
   udsa_c1_flag_true_all_resolved _ (ReachableUDSA.step envOK ReachableUDSA.start)⟩

/-- C2: on a call with the flag clear, if the class lookup, global-ref
promotion, field lookup and constructor lookup all return non-null, the
call completes without error, the flag is set, and all three handles are
non-null. -/
theorem udsa_c2_success_completes (env : JNIEnv) (s : UDSAGlobals)
    (c g f m : JRef)
    (hs : s.udsa_initialized = false)
    (h1 : env.FindClass "java/nio/channels/UnixDomainSocketAddress" = some c)
    (h2 : env.NewGlobalRef c = some g)
    (h3 : env.GetFieldID g "pathname" "Ljava/lang/String;" = some f)
    (h4 : env.GetMethodID g "<init>" "(Ljava/lang/String;)V" = some m) :
    (Java_java_nio_channels_UnixDomainSocketAddress_init env s).error = false ∧
    (Java_java_nio_channels_UnixDomainSocketAddress_init env s).state.udsa_initialized
      = true ∧
    (Java_java_nio_channels_UnixDomainSocketAddress_init env s).state.udsa_class
      = some g ∧
    (Java_java_nio_channels_UnixDomainSocketAddress_init env s).state.udsa_pathID
      = some f ∧
    (Java_java_nio_channels_UnixDomainSocketAddress_init env s).state.udsa_ctorID
      = some m := by
  rw [init_success env s c g f m hs h1 h2 h3 h4]
  exact ⟨rfl, rfl, rfl, rfl, rfl⟩

/-- C2 witness: concrete all-success environment from the zero-initialised
globals. -/
theorem udsa_c2_witness :
    (initialGlobals.udsa_initialized = false ∧
     envOK.FindClass "java/nio/channels/UnixDomainSocketAddress" = some 1 ∧
     envOK.NewGlobalRef 1 = some 101 ∧
     envOK.GetFieldID 101 "pathname" "Ljava/lang/String;" = some 2 ∧
     envOK.GetMethodID 101 "<init>" "(Ljava/lang/String;)V" = some 3) ∧
    ((Java_java_nio_channels_UnixDomainSocketAddress_init envOK
        initialGlobals).error = false ∧
     (Java_java_nio_channels_UnixDomainSocketAddress_init envOK
        initialGlobals).state.udsa_initialized = true ∧
     (Java_java_nio_channels_UnixDomainSocketAddress_init envOK
        initialGlobals).state.udsa_class = some 101 ∧
     (Java_java_nio_channels_UnixDomainSocketAddress_init envOK
        initialGlobals).state.udsa_pathID = some 2 ∧
     (Java_java_nio_channels_UnixDomainSocketAddress_init envOK
        initialGlobals).state.udsa_ctorID = some 3) :=
  ⟨⟨rfl, rfl, rfl, rfl, rfl⟩,
   udsa_c2_success_completes envOK initialGlobals 1 101 2 3 rfl rfl rfl rfl rfl⟩

/-- C4: if `FindClass` returns `NULL` on a call with the flag clear, the
field and constructor lookups are never attempted, the call returns with a
pending error, and the flag (indeed the whole global state) is unchanged. -/
theorem udsa_c4_findclass_short_circuits (env : JNIEnv) (s : UDSAGlobals)
    (hs : s.udsa_initialized = false)
    (h1 : env.FindClass "java/nio/channels/UnixDomainSocketAddress" = none) :
    (Java_java_nio_channels_UnixDomainSocketAddress_init env s).trace.count
      JNICall.GetFieldID = 0 ∧
    (Java_java_nio_channels_UnixDomainSocketAddress_init env s).trace.count
      JNICall.GetMethodID = 0 ∧
    (Java_java_nio_channels_UnixDomainSocketAddress_init env s).error = true ∧
    (Java_java_nio_channels_UnixDomainSocketAddress_init env s).state = s ∧
    (Java_java_nio_channels_UnixDomainSocketAddress_init env s).state.udsa_initialized
      = false := by
  rw [init_findClass_none env s hs h1]
  exact ⟨rfl, rfl, rfl, rfl, hs⟩

/-- C4 witness: environment whose `FindClass` fails, from start-up state. -/
theorem udsa_c4_witness :
    (initialGlobals.udsa_initialized = false ∧
     envFindClassFails.FindClass "java/nio/channels/UnixDomainSocketAddress"
       = none) ∧
    ((Java_java_nio_channels_UnixDomainSocketAddress_init envFindClassFails
        initialGlobals).trace.count JNICall.GetFieldID = 0 ∧
     (Java_java_nio_channels_UnixDomainSocketAddress_init envFindClassFails
        initialGlobals).trace.count JNICall.GetMethodID = 0 ∧
     (Java_java_nio_channels_UnixDomainSocketAddress_init envFindClassFails
        initialGlobals).error = true ∧
     (Java_java_nio_channels_UnixDomainSocketAddress_init envFindClassFails
        initialGlobals).state = initialGlobals ∧
     (Java_java_nio_channels_UnixDomainSocketAddress_init envFindClassFails
        initialGlobals).state.udsa_initialized = false) :=
  ⟨⟨rfl, rfl⟩,
   udsa_c4_findclass_short_circuits envFindClassFails initialGlobals rfl rfl⟩

/-- C5: if `GetFieldID` returns `NULL` after `FindClass` and `NewGlobalRef`
succeeded, the constructor lookup is never attempted, the call returns with
a pending error, and the flag stays clear — while `udsa_class` already
holds the global reference. -/
theorem udsa_c5_fieldid_short_circuits (env : JNIEnv) (s : UDSAGlobals)
    (c g : JRef)
    (hs : s.udsa_initialized = false)
    (h1 : env.FindClass "java/nio/channels/UnixDomainSocketAddress" = some c)
    (h2 : env.NewGlobalRef c = some g)
    (h3 : env.GetFieldID g "pathname" "Ljava/lang/String;" = none) :
    (Java_java_nio_channels_UnixDomainSocketAddress_init env s).trace.count
      JNICall.GetMethodID = 0 ∧
    (Java_java_nio_channels_UnixDomainSocketAddress_init env s).trace
      = [JNICall.FindClass, JNICall.NewGlobalRef, JNICall.GetFieldID] ∧
    (Java_java_nio_channels_UnixDomainSocketAddress_init env s).error = true ∧
    (Java_java_nio_channels_UnixDomainSocketAddress_init env s).state.udsa_initialized
      = false ∧
    (Java_java_nio_channels_UnixDomainSocketAddress_init env s).state.udsa_class
      = some g := by
  rw [init_fieldID_none env s c g hs h1 h2 h3]
  exact ⟨rfl, rfl, rfl, hs, rfl⟩

/-- C5 witness: environment whose `GetFieldID` fails, from start-up state. -/
theorem udsa_c5_witness :
    (initialGlobals.udsa_initialized = false ∧
     envGetFieldIDFails.FindClass "java/nio/channels/UnixDomainSocketAddress"
       = some 1 ∧
     envGetFieldIDFails.NewGlobalRef 1 = some 101 ∧
     envGetFieldIDFails.GetFieldID 101 "pathname" "Ljava/lang/String;" = none) ∧
    ((Java_java_nio_channels_UnixDomainSocketAddress_init envGetFieldIDFails
        initialGlobals).trace.count JNICall.GetMethodID = 0 ∧
     (Java_java_nio_channels_UnixDomainSocketAddress_init envGetFieldIDFails
        initialGlobals).trace
       = [JNICall.FindClass, JNICall.NewGlobalRef, JNICall.GetFieldID] ∧
     (Java_java_nio_channels_UnixDomainSocketAddress_init envGetFieldIDFails
        initialGlobals).error = true ∧
     (Java_java_nio_channels_UnixDomainSocketAddress_init envGetFieldIDFails
        initialGlobals).state.udsa_initialized = false ∧
     (Java_java_nio_channels_UnixDomainSocketAddress_init envGetFieldIDFails
        initialGlobals).state.udsa_class = some 101) :=
  ⟨⟨rfl, rfl, rfl, rfl⟩,
   udsa_c5_fieldid_short_circuits envGetFieldIDFails initialGlobals 1 101
     rfl rfl rfl rfl⟩

/-- C7: if a step after the successful `NewGlobalRef` fails (field or
constructor lookup), the global reference is not released: `udsa_class`
still holds it when the call returns with the error. -/
theorem udsa_c7_no_rollback (env : JNIEnv) (s : UDSAGlobals) (c g : JRef)
    (hs : s.udsa_initialized = false)
    (h1 : env.FindClass "java/nio/channels/UnixDomainSocketAddress" = some c)
    (h2 : env.NewGlobalRef c = some g)
    (hfail : env.GetFieldID g "pathname" "Ljava/lang/String;" = none ∨
      ∃ f, env.GetFieldID g "pathname" "Ljava/lang/String;" = some f ∧
        env.GetMethodID g "<init>" "(Ljava/lang/String;)V" = none) :
    (Java_java_nio_channels_UnixDomainSocketAddress_init env s).state.udsa_class
      = some g ∧
    (Java_java_nio_channels_UnixDomainSocketAddress_init env s).error = true := by
  rcases hfail with h3 | ⟨f, h3, h4⟩
  · rw [init_fieldID_none env s c g hs h1 h2 h3]
    exact ⟨rfl, rfl⟩
  · rw [init_methodID_none env s c g f hs h1 h2 h3 h4]
    exact ⟨rfl, rfl⟩

/-- C7 witness: failing field lookup leaves the global class reference in
place. -/
theorem udsa_c7_witness :
    (initialGlobals.udsa_initialized = false ∧
     envGetFieldIDFails.FindClass "java/nio/channels/UnixDomainSocketAddress"
       = some 1 ∧
     envGetFieldIDFails.NewGlobalRef 1 = some 101 ∧
     envGetFieldIDFails.GetFieldID 101 "pathname" "Ljava/lang/String;" = none) ∧
    ((Java_java_nio_channels_UnixDomainSocketAddress_init envGetFieldIDFails
        initialGlobals).state.udsa_class = some 101 ∧
     (Java_java_nio_channels_UnixDomainSocketAddress_init envGetFieldIDFails
        initialGlobals).error = true) :=
  ⟨⟨rfl, rfl, rfl, rfl⟩,
   udsa_c7_no_rollback envGetFieldIDFails initialGlobals 1 101 rfl rfl rfl
     (Or.inl rfl)⟩

/-- C3: in an environment where every lookup succeeds, calling the entry
point `n + 1` times from C start-up performs each of the three lookups
exactly once and ends in the same state as after the first call; and once
the flag is true, any call in any environment returns immediately with no
error, no trace, and the globals untouched. -/
theorem udsa_c3_idempotent (env : JNIEnv) (c g f m : JRef) (n : Nat)
    (h1 : env.FindClass "java/nio/channels/UnixDomainSocketAddress" = some c)
    (h2 : env.NewGlobalRef c = some g)
    (h3 : env.GetFieldID g "pathname" "Ljava/lang/String;" = some f)
    (h4 : env.GetMethodID g "<init>" "(Ljava/lang/String;)V" = some m) :
    (∀ (env2 : JNIEnv) (s : UDSAGlobals), s.udsa_initialized = true →
        Java_java_nio_channels_UnixDomainSocketAddress_init env2 s
          = ⟨s, false, []⟩) ∧
    Java_java_nio_channels_UnixDomainSocketAddress_init env initialGlobals
      = ⟨doneGlobals g f m, false, jniCallSequence⟩ ∧
    runCalls (List.replicate (n + 1) env) initialGlobals
      = (doneGlobals g f m, jniCallSequence) ∧
    (runCalls (List.replicate (n + 1) env) initialGlobals).2.count
      JNICall.FindClass = 1 ∧
    (runCalls (List.replicate (n + 1) env) initialGlobals).2.count
      JNICall.GetFieldID = 1 ∧
    (runCalls (List.replicate (n + 1) env) initialGlobals).2.count
      JNICall.GetMethodID = 1 := by
  have hr := init_success env initialGlobals c g f m rfl h1 h2 h3 h4
  have hrun : runCalls (List.replicate (n + 1) env) initialGlobals
      = (doneGlobals g f m, jniCallSequence) := by
    rw [List.replicate_succ]
    simp only [runCalls, hr]
    rw [runCalls_done _ _ (by rfl)]
    simp
  refine ⟨fun env2 s h => init_done env2 s h, hr, hrun, ?_, ?_, ?_⟩ <;>
    rw [hrun] <;> rfl

/-- C3 witness: three calls in the all-success environment. -/
theorem udsa_c3_witness :
    (envOK.FindClass "java/nio/channels/UnixDomainSocketAddress" = some 1 ∧
     envOK.NewGlobalRef 1 = some 101 ∧
     envOK.GetFieldID 101 "pathname" "Ljava/lang/String;" = some 2 ∧
     envOK.GetMethodID 101 "<init>" "(Ljava/lang/String;)V" = some 3) ∧
    ((∀ (env2 : JNIEnv) (s : UDSAGlobals), s.udsa_initialized = true →
        Java_java_nio_channels_UnixDomainSocketAddress_init env2 s
          = ⟨s, false, []⟩) ∧
     Java_java_nio_channels_UnixDomainSocketAddress_init envOK initialGlobals
       = ⟨doneGlobals 101 2 3, false, jniCallSequence⟩ ∧
     runCalls (List.replicate 3 envOK) initialGlobals
       = (doneGlobals 101 2 3, jniCallSequence) ∧
     (runCalls (List.replicate 3 envOK) initialGlobals).2.count
       JNICall.FindClass = 1 ∧
     (runCalls (List.replicate 3 envOK) initialGlobals).2.count
       JNICall.GetFieldID = 1 ∧
     (runCalls (List.replicate 3 envOK) initialGlobals).2.count
       JNICall.GetMethodID = 1) :=
  ⟨⟨rfl, rfl, rfl, rfl⟩,
   udsa_c3_idempotent envOK 1 101 2 3 2 rfl rfl rfl rfl⟩

/-- C6: on an initializing call the performed JNI operations are always a
prefix of the fixed sequence FindClass, NewGlobalRef, GetFieldID,
GetMethodID (so a failure short-circuits everything after it), and the flag
ends up set exactly when no step errored and the whole sequence ran — i.e.
the flag is set last, only after every step succeeded. -/
theorem udsa_c6_step_order (env : JNIEnv) (s : UDSAGlobals)
    (hs : s.udsa_initialized = false) :
    (Java_java_nio_channels_UnixDomainSocketAddress_init env s).trace
      <+: jniCallSequence ∧
    ((Java_java_nio_channels_UnixDomainSocketAddress_init env s).state.udsa_initialized
        = true ↔
      ((Java_java_nio_channels_UnixDomainSocketAddress_init env s).error = false ∧
       (Java_java_nio_channels_UnixDomainSocketAddress_init env s).trace
         = jniCallSequence)) ∧
    ((Java_java_nio_channels_UnixDomainSocketAddress_init env s).error = true →
      (Java_java_nio_channels_UnixDomainSocketAddress_init env s).state.udsa_initialized
        = false) := by
  rcases h1 : env.FindClass "java/nio/channels/UnixDomainSocketAddress" with _ | c
  · rw [init_findClass_none env s hs h1]
    exact ⟨⟨[JNICall.NewGlobalRef, JNICall.GetFieldID, JNICall.GetMethodID], rfl⟩,
      by simp [hs], fun _ => hs⟩
  · rcases h2 : env.NewGlobalRef c with _ | g
    · rw [init_globalRef_none env s c hs h1 h2]
      exact ⟨⟨[JNICall.GetFieldID, JNICall.GetMethodID], rfl⟩,
        by simp [hs], fun _ => hs⟩
    · rcases h3 : env.GetFieldID g "pathname" "Ljava/lang/String;" with _ | f
      · rw [init_fieldID_none env s c g hs h1 h2 h3]
        exact ⟨⟨[JNICall.GetMethodID], rfl⟩, by simp [hs], fun _ => hs⟩
      · rcases h4 : env.GetMethodID g "<init>" "(Ljava/lang/String;)V" with _ | m
        · rw [init_methodID_none env s c g f hs h1 h2 h3 h4]
          exact ⟨⟨[], rfl⟩, by simp [hs], fun _ => hs⟩
        · rw [init_success env s c g f m hs h1 h2 h3 h4]
          exact ⟨⟨[], rfl⟩, ⟨fun _ => ⟨rfl, rfl⟩, fun _ => rfl⟩, fun h => nomatch h⟩

/-- C6 witness: environment where the last step fails, from start-up. -/
theorem udsa_c6_witness :
    initialGlobals.udsa_initialized = false ∧
    ((Java_java_nio_channels_UnixDomainSocketAddress_init envGetMethodIDFails
        initialGlobals).trace <+: jniCallSequence ∧
     ((Java_java_nio_channels_UnixDomainSocketAddress_init envGetMethodIDFails
          initialGlobals).state.udsa_initialized = true ↔
       ((Java_java_nio_channels_UnixDomainSocketAddress_init envGetMethodIDFails
           initialGlobals).error = false ∧
        (Java_java_nio_channels_UnixDomainSocketAddress_init envGetMethodIDFails
           initialGlobals).trace = jniCallSequence)) ∧
     ((Java_java_nio_channels_UnixDomainSocketAddress_init envGetMethodIDFails
         initialGlobals).error = true →
       (Java_java_nio_channels_UnixDomainSocketAddress_init envGetMethodIDFails
          initialGlobals).state.udsa_initialized = false)) :=
  ⟨rfl, udsa_c6_step_order envGetMethodIDFails initialGlobals rfl⟩

/-- C8: once the flag is true, a single call is the identity (no error, no
JNI operations), any sequence of calls is the identity with an empty total
trace, and the flag never transitions from true back to false. -/
theorem udsa_c8_once_set_stays (env : JNIEnv) (envs : List JNIEnv)
    (s : UDSAGlobals) (h : s.udsa_initialized = true) :
    Java_java_nio_channels_UnixDomainSocketAddress_init env s = ⟨s, false, []⟩ ∧
    runCalls envs s = (s, []) ∧
    (∀ (env2 : JNIEnv) (s2 : UDSAGlobals),
        (Java_java_nio_channels_UnixDomainSocketAddress_init env2
            s2).state.udsa_initialized = false →
          s2.udsa_initialized = false) :=
  ⟨init_done env s h, runCalls_done envs s h,
   fun env2 s2 hf => init_flag_of_false env2 s2 hf⟩

/-- C8 witness: a fully initialized state survives a failing and a
succeeding environment untouched. -/
theorem udsa_c8_witness :
    (doneGlobals 101 2 3).udsa_initialized = true ∧
    (Java_java_nio_channels_UnixDomainSocketAddress_init envFindClassFails
        (doneGlobals 101 2 3) = ⟨doneGlobals 101 2 3, false, []⟩ ∧
     runCalls [envFindClassFails, envOK] (doneGlobals 101 2 3)
       = (doneGlobals 101 2 3, []) ∧
     (∀ (env2 : JNIEnv) (s2 : UDSAGlobals),
        (Java_java_nio_channels_UnixDomainSocketAddress_init env2
            s2).state.udsa_initialized = false →
          s2.udsa_initialized = false)) :=
  ⟨rfl,
   udsa_c8_once_set_stays envFindClassFails [envFindClassFails, envOK]
     (doneGlobals 101 2 3) rfl⟩

/-- C9: after any call that returned with an error (flag still clear), a
further call in an environment where every lookup succeeds completes the
initialization: flag set, all handles freshly resolved — `udsa_class` holds
the new environment's global reference, overwriting whatever the failed
attempt left behind. -/
theorem udsa_c9_retry_after_failure (env1 env2 : JNIEnv) (s0 : UDSAGlobals)
    (c g f m : JRef)
    (hfail : (Java_java_nio_channels_UnixDomainSocketAddress_init env1 s0).error
      = true)
    (h1 : env2.FindClass "java/nio/channels/UnixDomainSocketAddress" = some c)
    (h2 : env2.NewGlobalRef c = some g)
    (h3 : env2.GetFieldID g "pathname" "Ljava/lang/String;" = some f)
    (h4 : env2.GetMethodID g "<init>" "(Ljava/lang/String;)V" = some m) :
    Java_java_nio_channels_UnixDomainSocketAddress_init env2
        (Java_java_nio_channels_UnixDomainSocketAddress_init env1 s0).state
      = ⟨doneGlobals g f m, false, jniCallSequence⟩ :=
  init_success env2 _ c g f m (init_error_flag env1 s0 hfail) h1 h2 h3 h4

/-- C9 witness: a failed field lookup followed by an all-success retry. -/
theorem udsa_c9_witness :
    ((Java_java_nio_channels_UnixDomainSocketAddress_init envGetFieldIDFails
        initialGlobals).error = true ∧
     envOK.FindClass "java/nio/channels/UnixDomainSocketAddress" = some 1 ∧
     envOK.NewGlobalRef 1 = some 101 ∧
     envOK.GetFieldID 101 "pathname" "Ljava/lang/String;" = some 2 ∧
     envOK.GetMethodID 101 "<init>" "(Ljava/lang/String;)V" = some 3) ∧
    Java_java_nio_channels_UnixDomainSocketAddress_init envOK
        (Java_java_nio_channels_UnixDomainSocketAddress_init envGetFieldIDFails
          initialGlobals).state
      = ⟨doneGlobals 101 2 3, false, jniCallSequence⟩ :=
  ⟨⟨rfl, rfl, rfl, rfl, rfl⟩,
   udsa_c9_retry_after_failure envGetFieldIDFails envOK initialGlobals
     1 101 2 3 rfl rfl rfl rfl rfl⟩

/-- C10: each global handle variable is written before its `NULL` check —
a failing step overwrites its own global with the null result while the
globals of later steps keep their previous values (and a failing
`FindClass`, whose result goes to a local, leaves all globals unchanged). -/
theorem udsa_c10_write_before_check (env : JNIEnv) (s : UDSAGlobals)
    (hs : s.udsa_initialized = false) :
    (env.FindClass "java/nio/channels/UnixDomainSocketAddress" = none →
      (Java_java_nio_channels_UnixDomainSocketAddress_init env s).state = s) ∧
    (∀ c, env.FindClass "java/nio/channels/UnixDomainSocketAddress" = some c →
      env.NewGlobalRef c = none →
      (Java_java_nio_channels_UnixDomainSocketAddress_init env s).state.udsa_class
        = none ∧
      (Java_java_nio_channels_UnixDomainSocketAddress_init env s).state.udsa_pathID
        = s.udsa_pathID ∧
      (Java_java_nio_channels_UnixDomainSocketAddress_init env s).state.udsa_ctorID
        = s.udsa_ctorID) ∧
    (∀ c g, env.FindClass "java/nio/channels/UnixDomainSocketAddress" = some c →
      env.NewGlobalRef c = some g →
      env.GetFieldID g "pathname" "Ljava/lang/String;" = none →
      (Java_java_nio_channels_UnixDomainSocketAddress_init env s).state.udsa_class
        = some g ∧
      (Java_java_nio_channels_UnixDomainSocketAddress_init env s).state.udsa_pathID
        = none ∧
      (Java_java_nio_channels_UnixDomainSocketAddress_init env s).state.udsa_ctorID
        = s.udsa_ctorID) ∧
    (∀ c g f, env.FindClass "java/nio/channels/UnixDomainSocketAddress" = some c →
      env.NewGlobalRef c = some g →
      env.GetFieldID g "pathname" "Ljava/lang/String;" = some f →
      env.GetMethodID g "<init>" "(Ljava/lang/String;)V" = none →
      (Java_java_nio_channels_UnixDomainSocketAddress_init env s).state.udsa_class
        = some g ∧
      (Java_java_nio_channels_UnixDomainSocketAddress_init env s).state.udsa_pathID
        = some f ∧
      (Java_java_nio_channels_UnixDomainSocketAddress_init env s).state.udsa_ctorID
        = none) := by
  refine ⟨?_, ?_, ?_, ?_⟩
  · intro h1
    rw [init_findClass_none env s hs h1]
  · intro c h1 h2
    rw [init_globalRef_none env s c hs h1 h2]
    exact ⟨rfl, rfl, rfl⟩
  · intro c g h1 h2 h3
    rw [init_fieldID_none env s c g hs h1 h2 h3]
    exact ⟨rfl, rfl, rfl⟩
  · intro c g f h1 h2 h3 h4
    rw [init_methodID_none env s c g f hs h1 h2 h3 h4]
    exact ⟨rfl, rfl, rfl⟩

/-- C10 witness: environment whose `NewGlobalRef` fails, from start-up. -/
theorem udsa_c10_witness :
    initialGlobals.udsa_initialized = false ∧
    ((envGlobalRefFails.FindClass "java/nio/channels/UnixDomainSocketAddress"
        = none →
      (Java_java_nio_channels_UnixDomainSocketAddress_init envGlobalRefFails
          initialGlobals).state = initialGlobals) ∧
     (∀ c, envGlobalRefFails.FindClass "java/nio/channels/UnixDomainSocketAddress"
        = some c →
      envGlobalRefFails.NewGlobalRef c = none →
      (Java_java_nio_channels_UnixDomainSocketAddress_init envGlobalRefFails
          initialGlobals).state.udsa_class = none ∧
      (Java_java_nio_channels_UnixDomainSocketAddress_init envGlobalRefFails
          initialGlobals).state.udsa_pathID = initialGlobals.udsa_pathID ∧
      (Java_java_nio_channels_UnixDomainSocketAddress_init envGlobalRefFails
          initialGlobals).state.udsa_ctorID = initialGlobals.udsa_ctorID) ∧
     (∀ c g, envGlobalRefFails.FindClass "java/nio/channels/UnixDomainSocketAddress"
        = some c →
      envGlobalRefFails.NewGlobalRef c = some g →
      envGlobalRefFails.GetFieldID g "pathname" "Ljava/lang/String;" = none →
      (Java_java_nio_channels_UnixDomainSocketAddress_init envGlobalRefFails
          initialGlobals).state.udsa_class = some g ∧
      (Java_java_nio_channels_UnixDomainSocketAddress_init envGlobalRefFails
          initialGlobals).state.udsa_pathID = none ∧
      (Java_java_nio_channels_UnixDomainSocketAddress_init envGlobalRefFails
          initialGlobals).state.udsa_ctorID = initialGlobals.udsa_ctorID) ∧
     (∀ c g f, envGlobalRefFails.FindClass "java/nio/channels/UnixDomainSocketAddress"
        = some c →
      envGlobalRefFails.NewGlobalRef c = some g →
      envGlobalRefFails.GetFieldID g "pathname" "Ljava/lang/String;" = some f →
      envGlobalRefFails.GetMethodID g "<init>" "(Ljava/lang/String;)V" = none →
      (Java_java_nio_channels_UnixDomainSocketAddress_init envGlobalRefFails
          initialGlobals).state.udsa_class = some g ∧
      (Java_java_nio_channels_UnixDomainSocketAddress_init envGlobalRefFails
          initialGlobals).state.udsa_pathID = some f ∧
      (Java_java_nio_channels_UnixDomainSocketAddress_init envGlobalRefFails
          initialGlobals).state.udsa_ctorID = none)) :=
  ⟨rfl, udsa_c10_write_before_check envGlobalRefFails initialGlobals rfl⟩
